import Mathlib

/-!
Verification development for the FloatChat ARGO single-page client
(`src/frontend/app.js`).  The client state machine (page routing, demo
authentication with a locally stored encoded credential, chat transcript
and keyword-based response resolver, admin training-data update) is
embedded shallowly: DOM-visible outputs (rendered main view, modal
visibility, status markers, alerts) are fields of an explicit state
record, and the browser built-ins the code calls (`btoa`, `atob`,
`String.prototype.split`, `JSON.parse`, `JSON.stringify`) are modelled
as executable Lean functions over character lists.
-/

set_option autoImplicit false

/-- One ARGO float record, as in the `argoFloats` array literal
(`app.js` lines 7-13). -/
structure FloatRec where
  id : String
  lat : ℚ
  lng : ℚ
  status : String
  temp : ℚ
  salinity : ℚ
  deriving Repr, DecidableEq

/-- The fixed list of five float records from the `FloatChatApp`
constructor. -/
def argoFloats : List FloatRec :=
  [ { id := "2901623", lat := -10.5, lng := 67.8, status := "active", temp := 28.5, salinity := 35.1 },
    { id := "2901624", lat := -15.2, lng := 72.1, status := "active", temp := 27.8, salinity := 35.3 },
    { id := "2901625", lat := -8.7, lng := 65.3, status := "active", temp := 29.1, salinity := 34.9 },
    { id := "2901626", lat := -12.8, lng := 70.5, status := "maintenance", temp := 25.2, salinity := 35.0 },
    { id := "2901627", lat := -6.2, lng := 68.9, status := "active", temp := 28.8, salinity := 35.2 } ]

/-- JSON values, the possible results of the browser built-in
`JSON.parse` (which never yields `undefined`). -/
inductive JsVal where
  | null
  | bool (b : Bool)
  | num (q : ℚ)
  | str (s : String)
  | arr (elems : List JsVal)
  | obj (fields : List (String × JsVal))

/-- One chat turn as pushed onto `this.chatHistory`
(`app.js` line 491): user text, bot text and a timestamp, all recorded
in the same push. -/
structure ChatTurn where
  user : String
  bot : String
  timestamp : ℚ

/-- One entry of the chat-messages transcript DOM container. -/
inductive ChatMsg where
  | user (text : String)
  | bot (text : String)

/-- Which template currently fills the `main-content` element. -/
inductive MainView where
  | home
  | about
  | contact
  | userDash
  | adminDash

/-- Which template currently fills the `user-content` element. -/
inductive UserView where
  | chat
  | argoMap
  | oceanMap
  | profile

/-- Which template currently fills the `admin-content` element. -/
inductive AdminView where
  | chatbotDB
  | ncConverter
  | system
  | users

/-- The client state: the `FloatChatApp` instance fields plus the
DOM-visible outputs the claims are about.  `storage` is the
`localStorage` slot under the single fixed key `authToken`;
`alerts` records the user-visible `alert(...)` calls;
`pendingReplies` are the deferred one-shot chat-reply callbacks
(equal fixed delay, hence FIFO); `pendingConversion` is the deferred
file-conversion callback. -/
structure AppState where
  currentUser : Option JsVal
  currentPage : String
  chatHistory : List ChatTurn
  argoFloats : List FloatRec
  storage : Option String
  mainContent : Option MainView
  modalOpen : Bool
  userContent : Option UserView
  adminContent : Option AdminView
  chatMessages : List ChatMsg
  chatInput : String
  pendingReplies : List String
  trainingData : String
  updateStatus : Option String
  ncFiles : List String
  conversionStatus : Option String
  pendingConversion : Bool
  alerts : List String

/-! ## String utilities modelling JS built-ins -/

/-- `startsWithList p t`: the character list `p` is a prefix of `t`. -/
def startsWithList : List Char → List Char → Bool
  | [], _ => true
  | _ :: _, [] => false
  | p :: ps, t :: ts => p == t && startsWithList ps ts

/-- `containsSub t p`: the character list `p` occurs contiguously in
`t`; models `String.prototype.includes`. -/
def containsSub : List Char → List Char → Bool
  | [], p => p.isEmpty
  | t :: ts, p => startsWithList p (t :: ts) || containsSub ts p

/-- `jsIncludes s pat`: models `s.includes(pat)` on JS strings. -/
def jsIncludes (s pat : String) : Bool :=
  containsSub s.data pat.data

/-- Auxiliary for `splitCh`: returns the chunk before the first
separator together with the list of remaining chunks. -/
def splitChAux (sep : Char) : List Char → (List Char × List (List Char))
  | [] => ([], [])
  | c :: rest =>
    let r := splitChAux sep rest
    if c = sep then ([], r.1 :: r.2) else (c :: r.1, r.2)

/-- Models `s.split(sep)` for a one-character separator: the list of
chunks between separator occurrences (JS yields `[s]` when the
separator does not occur, and `[""]` on the empty string). -/
def splitCh (sep : Char) (l : List Char) : List (List Char) :=
  (splitChAux sep l).1 :: (splitChAux sep l).2

/-- Decimal digit character. -/
def digitChar : Nat → Char
  | 0 => '0'
  | 1 => '1'
  | 2 => '2'
  | 3 => '3'
  | 4 => '4'
  | 5 => '5'
  | 6 => '6'
  | 7 => '7'
  | 8 => '8'
  | _ => '9'

/-- Fuel-indexed decimal printer for positive naturals (fuel `n`
suffices for `n` since the digit count never exceeds `n`). -/
def natCharsAux : Nat → Nat → List Char
  | 0, _ => []
  | fuel + 1, n => if n = 0 then [] else natCharsAux fuel (n / 10) ++ [digitChar (n % 10)]

/-- Decimal representation of a natural number. -/
def natChars (n : Nat) : List Char :=
  if n = 0 then ['0'] else natCharsAux n n

/-- Decimal representation of an integer, as `JSON.stringify` prints
integral numbers. -/
def intChars : Int → List Char
  | .ofNat n => natChars n
  | .negSucc m => '-' :: natChars (m + 1)

/-! ## Base64: models the browser built-ins `btoa` and `atob` -/

/-- The standard base64 alphabet, indexed 0-63. -/
def b64alphabet : List Char :=
  "ABCDEFGHIJKLMNOPQRSTUVWXYZabcdefghijklmnopqrstuvwxyz0123456789+/".data

/-- The alphabet character for a sextet (out-of-range indices, which
never arise for byte input, default to `'A'`). -/
def encB64 (n : Nat) : Char :=
  b64alphabet.getD n 'A'

/-- Base64-encode a byte list, emitting `'='` padding, as `btoa` does. -/
def b64encode : List Nat → List Char
  | [] => []
  | [a] => [encB64 (a / 4), encB64 (a % 4 * 16), '=', '=']
  | [a, b] => [encB64 (a / 4), encB64 (a % 4 * 16 + b / 16), encB64 (b % 16 * 4), '=']
  | a :: b :: c :: rest =>
    encB64 (a / 4) :: encB64 (a % 4 * 16 + b / 16) :: encB64 (b % 16 * 4 + c / 64) ::
      encB64 (c % 64) :: b64encode rest

/-- Models `btoa`: base64 of the code points of the string.  The JS
built-in throws on code points above 255; that case cannot arise here
because every string the app passes to `btoa` is ASCII (see
`stringifyAuthPayload_ascii` below), so the model is total. -/
def btoaFn (s : List Char) : List Char :=
  b64encode (s.map Char.toNat)

/-- The sextet value of a base64 alphabet character. -/
def b64val (c : Char) : Option Nat :=
  if 'A' ≤ c ∧ c ≤ 'Z' then some (c.toNat - 65)
  else if 'a' ≤ c ∧ c ≤ 'z' then some (c.toNat - 97 + 26)
  else if '0' ≤ c ∧ c ≤ '9' then some (c.toNat - 48 + 52)
  else if c = '+' then some 62
  else if c = '/' then some 63
  else none

/-- ASCII whitespace stripped by forgiving-base64 decode. -/
def isB64Ws (c : Char) : Bool :=
  c == ' ' || c == '\t' || c == '\n' || c == '\r' || c == '\x0c'

/-- Strip up to two trailing `'='` when the length is a multiple of 4,
as forgiving-base64 decode does. -/
def stripB64Padding (s : List Char) : List Char :=
  if s.length % 4 = 0 then
    match s.reverse with
    | '=' :: '=' :: rest => rest.reverse
    | '=' :: rest => rest.reverse
    | _ => s
  else s

/-- Reassemble sextets into bytes (a trailing group of 2 or 3 sextets
yields 1 or 2 bytes, extra bits discarded, as forgiving-base64 does). -/
def b64sextetsToBytes : List Nat → List Nat
  | a :: b :: c :: d :: rest =>
    (a * 4 + b / 16) :: (b % 16 * 16 + c / 4) :: (c % 4 * 64 + d) :: b64sextetsToBytes rest
  | [a, b] => [a * 4 + b / 16]
  | [a, b, c] => [a * 4 + b / 16, b % 16 * 16 + c / 4]
  | _ => []

/-- Models `atob` (forgiving-base64 decode): strip ASCII whitespace,
strip permissible padding, fail on length ≡ 1 (mod 4) or on any
non-alphabet character, else decode; `none` models the thrown
`InvalidCharacterError`. -/
def atobFn (s : List Char) : Option (List Char) :=
  let t := stripB64Padding (s.filter (fun c => !isB64Ws c))
  if t.length % 4 = 1 then none
  else (t.mapM b64val).map (fun sextets => (b64sextetsToBytes sextets).map Char.ofNat)

/-! ## JSON: models `JSON.parse` and the one `JSON.stringify` call

The parser follows the JSON grammar: the three literals; numbers with
an optional minus, a leading-zero-free integer part, an optional
decimal fraction and an optional exponent; strings with the
single-character and `\u` escapes; arrays and objects. -/

/-- JSON insignificant whitespace. -/
def isJsonWs (c : Char) : Bool :=
  c == ' ' || c == '\t' || c == '\n' || c == '\r'

/-- Drop leading JSON whitespace. -/
def skipWs : List Char → List Char
  | [] => []
  | c :: rest => if isJsonWs c then skipWs rest else c :: rest

/-- The value of a hexadecimal digit, for `\u` escapes. -/
def hexVal (c : Char) : Option Nat :=
  if '0' ≤ c ∧ c ≤ '9' then some (c.toNat - 48)
  else if 'a' ≤ c ∧ c ≤ 'f' then some (c.toNat - 97 + 10)
  else if 'A' ≤ c ∧ c ≤ 'F' then some (c.toNat - 65 + 10)
  else none

/-- The single-character string escapes (`\u` is handled separately
in `parseStrChars`). -/
def escChar (c : Char) : Option Char :=
  if c = '"' then some '"'
  else if c = '\\' then some '\\'
  else if c = '/' then some '/'
  else if c = 'n' then some '\n'
  else if c = 't' then some '\t'
  else if c = 'r' then some '\r'
  else if c = 'b' then some (Char.ofNat 8)
  else if c = 'f' then some (Char.ofNat 12)
  else none

/-- Parse the body of a string literal after the opening quote,
returning the content and the remainder after the closing quote.
A `\u` escape takes four hexadecimal digits and yields that code
unit.  (Lean `Char` has no surrogate code units, so a `\u` escape
naming one yields U+0000 here; no claim input contains surrogates.) -/
def parseStrChars : Nat → List Char → Option (List Char × List Char)
  | 0, _ => none
  | _ + 1, [] => none
  | fuel + 1, c :: rest =>
    if c = '"' then some ([], rest)
    else if c = '\\' then
      match rest with
      | 'u' :: h1 :: h2 :: h3 :: h4 :: rest2 =>
        match hexVal h1, hexVal h2, hexVal h3, hexVal h4 with
        | some a, some b, some d1, some d2 =>
          match parseStrChars fuel rest2 with
          | none => none
          | some (cs, r) => some (Char.ofNat (((a * 16 + b) * 16 + d1) * 16 + d2) :: cs, r)
        | _, _, _, _ => none
      | [] => none
      | e :: rest2 =>
        match escChar e with
        | none => none
        | some ec =>
          match parseStrChars fuel rest2 with
          | none => none
          | some (cs, r) => some (ec :: cs, r)
    else if c.toNat < 32 then none
    else
      match parseStrChars fuel rest with
      | none => none
      | some (cs, r) => some (c :: cs, r)

/-- Numeric value of a digit list. -/
def digitsVal (l : List Char) : Nat :=
  l.foldl (fun a c => a * 10 + (c.toNat - 48)) 0

/-- A valid JSON integer part: `0` alone, or digits without a leading
zero (the grammar forbids `05`, which `JSON.parse` throws on). -/
def validIntPart (ds : List Char) : Bool :=
  match ds with
  | [] => false
  | ['0'] => true
  | '0' :: _ :: _ => false
  | _ => true

/-- `10 ^ e` over ℚ for a signed exponent. -/
def pow10Int : Int → ℚ
  | .ofNat n => (10 : ℚ) ^ n
  | .negSucc m => 1 / (10 : ℚ) ^ (m + 1)

/-- Parse the signed digits after an exponent marker. -/
def parseExpDigits (s : List Char) : Option (Int × List Char) :=
  match s with
  | '+' :: r =>
    let es := r.takeWhile Char.isDigit
    if es.isEmpty then none else some ((digitsVal es : Int), r.drop es.length)
  | '-' :: r =>
    let es := r.takeWhile Char.isDigit
    if es.isEmpty then none else some (-(digitsVal es : Int), r.drop es.length)
  | r =>
    let es := r.takeWhile Char.isDigit
    if es.isEmpty then none else some ((digitsVal es : Int), r.drop es.length)

/-- Apply an optional exponent part to a parsed mantissa. -/
def parseExpTail (mant : ℚ) (s : List Char) : Option (ℚ × List Char) :=
  match s with
  | 'e' :: r => (parseExpDigits r).map (fun p => (mant * pow10Int p.1, p.2))
  | 'E' :: r => (parseExpDigits r).map (fun p => (mant * pow10Int p.1, p.2))
  | _ => some (mant, s)

/-- Parse a non-negative JSON number: leading-zero-free integer part,
optional decimal fraction, optional exponent. -/
def parseNumNonneg (s : List Char) : Option (ℚ × List Char) :=
  let ds := s.takeWhile Char.isDigit
  if validIntPart ds then
    match s.drop ds.length with
    | '.' :: r2 =>
      let fs := r2.takeWhile Char.isDigit
      if fs.isEmpty then none
      else
        parseExpTail ((digitsVal ds : ℚ) + (digitsVal fs : ℚ) / (10 : ℚ) ^ fs.length)
          (r2.drop fs.length)
    | rest => parseExpTail (digitsVal ds : ℚ) rest
  else none

/-- Parse a JSON number with optional leading minus. -/
def parseNum : List Char → Option (ℚ × List Char)
  | '-' :: r => (parseNumNonneg r).map (fun p => (-p.1, p.2))
  | s => parseNumNonneg s

mutual

/-- Parse one JSON value; fuel bounds the recursion depth. -/
def parseVal : Nat → List Char → Option (JsVal × List Char)
  | 0, _ => none
  | fuel + 1, s =>
    match skipWs s with
    | 'n' :: 'u' :: 'l' :: 'l' :: r => some (.null, r)
    | 't' :: 'r' :: 'u' :: 'e' :: r => some (.bool true, r)
    | 'f' :: 'a' :: 'l' :: 's' :: 'e' :: r => some (.bool false, r)
    | '"' :: r =>
      match parseStrChars (fuel + 1) r with
      | none => none
      | some (cs, rest) => some (.str (String.mk cs), rest)
    | '[' :: r =>
      match skipWs r with
      | ']' :: r2 => some (.arr [], r2)
      | r2 =>
        match parseElems fuel r2 with
        | none => none
        | some (es, rest) => some (.arr es, rest)
    | '\x7b' :: r =>
      match skipWs r with
      | '\x7d' :: r2 => some (.obj [], r2)
      | r2 =>
        match parseMembers fuel r2 with
        | none => none
        | some (fs, rest) => some (.obj fs, rest)
    | r =>
      match parseNum r with
      | none => none
      | some (q, rest) => some (.num q, rest)

/-- Parse the elements of a non-empty array up to and including the
closing bracket. -/
def parseElems : Nat → List Char → Option (List JsVal × List Char)
  | 0, _ => none
  | fuel + 1, s =>
    match parseVal fuel s with
    | none => none
    | some (v, rest) =>
      match skipWs rest with
      | ',' :: r2 =>
        match parseElems fuel r2 with
        | none => none
        | some (es, r3) => some (v :: es, r3)
      | ']' :: r2 => some ([v], r2)
      | _ => none

/-- Parse the members of a non-empty object up to and including the
closing brace. -/
def parseMembers : Nat → List Char → Option (List (String × JsVal) × List Char)
  | 0, _ => none
  | fuel + 1, s =>
    match skipWs s with
    | '"' :: r =>
      match parseStrChars (fuel + 1) r with
      | none => none
      | some (kcs, r2) =>
        match skipWs r2 with
        | ':' :: r3 =>
          match parseVal fuel r3 with
          | none => none
          | some (v, r4) =>
            match skipWs r4 with
            | ',' :: r5 =>
              match parseMembers fuel r5 with
              | none => none
              | some (fs, r6) => some ((String.mk kcs, v) :: fs, r6)
            | '\x7d' :: r5 => some ([(String.mk kcs, v)], r5)
            | _ => none
        | _ => none
    | _ => none

end

/-- Models `JSON.parse`: parse one value, require only whitespace to
remain; `none` models the thrown `SyntaxError`.  The fuel is ample:
each recursive descent consumes input. -/
def jsonParse (s : List Char) : Option JsVal :=
  match parseVal (4 * s.length + 4) s with
  | some (v, rest) => if (skipWs rest).isEmpty then some v else none
  | none => none

/-- Property access `payload[key]` on a parsed JSON value: objects
yield the value of the last binding for the key (as `JSON.parse`
keeps the last duplicate), everything else yields `none`
(JS `undefined`). -/
def jsonGet : JsVal → String → Option JsVal
  | .obj fields, k => fields.reverse.lookup k
  | _, _ => none

/-- The truth value of `payload.exp > now` in JS.  A missing property
(`none` = `undefined`) compares false; numbers compare numerically;
`null` and booleans coerce to 0 and 0/1.  (`ToNumber` coercion of
strings, arrays and objects is not modelled; no claim input reaches
those cases.) -/
def expGT (v : Option JsVal) (now : ℚ) : Bool :=
  match v with
  | some (.num e) => decide (now < e)
  | some .null => decide (now < 0)
  | some (.bool b) => decide (now < (if b then 1 else 0))
  | _ => false

/-! ## The application operations (`FloatChatApp` methods) -/

/-- The serialization `JSON.stringify({...this.currentUser, exp})`
produced in `handleLogin` (`app.js` lines 214-217): insertion order is
username, role, name, exp, and the three string fields (the demo
account data) contain no characters needing escapes. -/
def stringifyAuthPayload (username role name : String) (exp : Int) : List Char :=
  "\x7b\"username\":\"".data ++ username.data ++ "\",\"role\":\"".data ++ role.data ++
    "\",\"name\":\"".data ++ name.data ++ "\",\"exp\":".data ++ intChars exp ++ ['\x7d']

/-- The fixed demo-account table of `handleLogin`: username to
(password, role, display name). -/
def demoUsers : String → Option (String × String × String)
  | "user" => some ("user123", "user", "Marine Researcher")
  | "admin" => some ("admin123", "admin", "System Administrator")
  | _ => none

/-- `showUserContent(type)`: fills the `user-content` element; types
outside the four handled tabs fall through the switch and change
nothing. -/
def showUserContent (st : AppState) (t : String) : AppState :=
  match t with
  | "chat" => { st with userContent := some .chat }
  | "argo-map" => { st with userContent := some .argoMap }
  | "ocean-map" => { st with userContent := some .oceanMap }
  | "profile" => { st with userContent := some .profile }
  | _ => st

/-- `showAdminContent(type)`: fills the `admin-content` element. -/
def showAdminContent (st : AppState) (t : String) : AppState :=
  match t with
  | "chatbot-db" => { st with adminContent := some .chatbotDB }
  | "nc-converter" => { st with adminContent := some .ncConverter }
  | "system" => { st with adminContent := some .system }
  | "users" => { st with adminContent := some .users }
  | _ => st

/-- `showPage(page)`: assigns `this.currentPage = page` first, then
dispatches on the page name; the `login` case opens the auth modal
instead of replacing `main-content`; the `user` and `admin` cases
render the dashboard and immediately select the default tab; names
outside the six cases fall through the switch rendering nothing. -/
def showPage (st : AppState) (page : String) : AppState :=
  let st := { st with currentPage := page }
  match page with
  | "home" => { st with mainContent := some .home }
  | "about" => { st with mainContent := some .about }
  | "contact" => { st with mainContent := some .contact }
  | "login" => { st with modalOpen := true }
  | "user" => showUserContent { st with mainContent := some .userDash } "chat"
  | "admin" => showAdminContent { st with mainContent := some .adminDash } "chatbot-db"
  | _ => st

/-- `handleLogin()`: check the entered pair against `demoUsers`; on
match set `currentUser`, store the base64-encoded JSON credential
under the fixed key with a 1-hour expiry (`exp` in seconds,
`Math.floor(Date.now()/1000) + 3600`), hide the modal and navigate to
the page named by the role; otherwise `alert('Invalid credentials')`
and change nothing else.  `now` is the value of `Date.now()/1000`. -/
def handleLogin (st : AppState) (username password : String) (now : ℚ) : AppState :=
  match demoUsers username with
  | some (pw, role, name) =>
    if password = pw then
      let payload : JsVal :=
        .obj [("username", .str username), ("role", .str role), ("name", .str name)]
      let exp : Int := ⌊now⌋ + 3600
      let token : String := String.mk (btoaFn (stringifyAuthPayload username role name exp))
      showPage { st with currentUser := some payload, storage := some token, modalOpen := false } role
    else { st with alerts := st.alerts ++ ["Invalid credentials"] }
  | none => { st with alerts := st.alerts ++ ["Invalid credentials"] }

/-- The decode pipeline of `checkAuthStatus`:
`JSON.parse(atob(token.split('.')[1]))`.  When the token contains no
dot, index 1 of the split is JS `undefined`, which `atob` coerces to
the string `"undefined"` (and then rejects, length 9 ≡ 1 mod 4).
`none` means the pipeline threw. -/
def decodeToken (token : String) : Option JsVal :=
  let parts := splitCh '.' token.data
  let part1 := (parts[1]?).getD "undefined".data
  match atobFn part1 with
  | none => none
  | some decoded => jsonParse decoded

/-- `checkAuthStatus()`: if a token is stored, decode it; on any throw
(caught) remove the stored token; if the decoded payload's `exp` is in
the future adopt the whole payload as `currentUser`; otherwise leave
everything, including the stored token, unchanged.  Accessing `.exp`
on a `null` payload throws a `TypeError`, which the same catch turns
into a removal. -/
def checkAuthStatus (st : AppState) (now : ℚ) : AppState :=
  match st.storage with
  | none => st
  | some token =>
    match decodeToken token with
    | none => { st with storage := none }
    | some .null => { st with storage := none }
    | some payload =>
      if expGT (jsonGet payload "exp") now then { st with currentUser := some payload }
      else st

/-- `logout()`: clear the session and the stored credential, then
navigate home. -/
def logout (st : AppState) : AppState :=
  showPage { st with currentUser := none, storage := none } "home"

/-! ## Chat resolver and transcript -/

/-- The temperature paragraph (interpolates the float-list length). -/
def tempResponse (floats : List FloatRec) : String :=
  "I found temperature data from " ++ toString floats.length ++
    " active floats. Average surface temperature is 28.1°C with variations from 25°C to 29°C. The thermocline typically occurs around 80-120m depth."

/-- The salinity paragraph. -/
def salResponse : String :=
  "Salinity measurements show typical values of 34.9-35.3 PSU across the monitored region. Higher salinity is observed in the Arabian Sea due to evaporation effects."

/-- The location paragraph (interpolates the float-list length). -/
def locResponse (floats : List FloatRec) : String :=
  "Currently tracking " ++ toString floats.length ++
    " ARGO floats across the Indian Ocean. Most recent data shows floats distributed between 6°S-16°S latitude and 65°E-73°E longitude."

/-- The float paragraph (interpolates the count of active floats). -/
def floatResponse (floats : List FloatRec) : String :=
  "ARGO float network includes " ++
    toString (floats.filter (fun f => f.status == "active")).length ++
    " active floats. Each float profiles to 2000m depth every 10 days, collecting T/S data."

/-- The profile paragraph. -/
def profileResponse : String :=
  "Ocean profiles show typical tropical stratification with warm surface waters (28-29°C), sharp thermocline (100-200m), and cooler deep waters (2-4°C at 2000m)."

/-- The generic fallback reply. -/
def fallbackResponse : String :=
  "I can help you explore ARGO float data including temperature, salinity, and location information. Try asking about specific parameters like \"show temperature profiles\" or \"where are the nearest floats\"."

/-- Models `s.toLowerCase()` character-wise (`Char.toLower` covers the
ASCII range; the table keywords are ASCII, so the Unicode-aware parts
of the built-in are never exercised). -/
def jsToLower (s : String) : String :=
  String.mk (s.data.map Char.toLower)

/-- The `responses` table of `generateChatResponse`, in the object's
insertion order (the order `Object.entries` iterates). -/
def chatResponses (floats : List FloatRec) : List (String × String) :=
  [ ("temperature", tempResponse floats),
    ("salinity", salResponse),
    ("location", locResponse floats),
    ("float", floatResponse floats),
    ("profile", profileResponse) ]

/-- `generateChatResponse(query)`: lower-case the query, return the
paragraph of the first table keyword occurring in it as a substring,
else the fallback. -/
def generateChatResponse (floats : List FloatRec) (query : String) : String :=
  let queryLower := jsToLower query
  match (chatResponses floats).find? (fun kv => jsIncludes queryLower kv.1) with
  | some kv => kv.2
  | none => fallbackResponse

/-- The whitespace set of `String.prototype.trim`: ECMA-262
WhiteSpace (TAB, VT, FF, SP, NBSP, ZWNBSP and the Unicode
space-separator category Zs) together with the LineTerminator set
(LF, CR, LS, PS). -/
def isTrimWs (c : Char) : Bool :=
  c == ' ' || c == '\t' || c == '\n' || c == '\x0b' || c == '\x0c' || c == '\r' ||
    c == '\xa0' || c == '\u1680' || (0x2000 ≤ c.toNat && c.toNat ≤ 0x200a) ||
    c == '\u2028' || c == '\u2029' || c == '\u202f' || c == '\u205f' ||
    c == '\u3000' || c == '\ufeff'

/-- Models `s.trim()`: drop leading and trailing whitespace. -/
def jsTrim (s : String) : String :=
  String.mk (((s.data.dropWhile isTrimWs).reverse.dropWhile isTrimWs).reverse)

/-- `sendChatMessage()`: trim the input; an empty result returns
immediately (no change at all).  Otherwise append the user message to
the transcript, compute the reply synchronously, schedule the bot
transcript entry behind the fixed 1-second delay, push the complete
turn (user text, bot text, timestamp) onto `chatHistory`, and clear
the input. -/
def sendChatMessage (st : AppState) (now : ℚ) : AppState :=
  let message := jsTrim st.chatInput
  if message = "" then st
  else
    let response := generateChatResponse st.argoFloats message
    { st with
      chatMessages := st.chatMessages ++ [ChatMsg.user message],
      pendingReplies := st.pendingReplies ++ [response],
      chatHistory := st.chatHistory ++ [⟨message, response, now⟩],
      chatInput := "" }

/-- The deferred chat-reply callback firing: append the bot message
scheduled earliest (all delays are equal, hence FIFO). -/
def fireReply (st : AppState) : AppState :=
  match st.pendingReplies with
  | [] => st
  | r :: rest => { st with chatMessages := st.chatMessages ++ [ChatMsg.bot r], pendingReplies := rest }

/-! ## Admin actions -/

/-- The inline success marker written by `updateChatbotDB`. -/
def successMarker : String :=
  "<div style=\"color: green;\">✓ Chatbot database updated successfully!</div>"

/-- The inline failure marker written by `updateChatbotDB`. -/
def invalidMarker : String :=
  "<div style=\"color: red;\">✗ Invalid JSON format</div>"

/-- `updateChatbotDB()`: try `JSON.parse` on the training-data text;
write the success marker if it parses and the failure marker if it
throws; nothing else changes either way. -/
def updateChatbotDB (st : AppState) : AppState :=
  match jsonParse st.trainingData.data with
  | some _ => { st with updateStatus := some successMarker }
  | none => { st with updateStatus := some invalidMarker }

/-- Marker shown when no files are selected for conversion. -/
def noFilesMarker : String :=
  "<div style=\"color: red;\">Please select NetCDF files</div>"

/-- Marker shown while the simulated conversion is pending. -/
def convertingMarker : String :=
  "<div style=\"color: blue;\">Converting files...</div>"

/-- Marker shown when the simulated conversion completes. -/
def convertedMarker : String :=
  "<div style=\"color: green;\">✓ Conversion completed!</div>"

/-- `convertNCFiles()`: reject an empty selection with an inline
marker; otherwise show the in-progress marker and schedule the
simulated completion.  (The per-file results listing is a pure
rendering of the selected names and is not tracked separately.) -/
def convertNCFiles (st : AppState) : AppState :=
  if st.ncFiles.length = 0 then { st with conversionStatus := some noFilesMarker }
  else { st with conversionStatus := some convertingMarker, pendingConversion := true }

/-- The deferred conversion callback firing. -/
def fireConversion (st : AppState) : AppState :=
  if st.pendingConversion then
    { st with conversionStatus := some convertedMarker, pendingConversion := false }
  else st

/-! ## App construction and the action step relation -/

/-- The `FloatChatApp` constructor fields before `init()` runs:
no session, page `home`, empty transcript, the five fixed float
records; `stored` is whatever the browser kept under the fixed
storage key from an earlier session. -/
def initialState (stored : Option String) : AppState :=
  { currentUser := none,
    currentPage := "home",
    chatHistory := [],
    argoFloats := argoFloats,
    storage := stored,
    mainContent := none,
    modalOpen := false,
    userContent := none,
    adminContent := none,
    chatMessages := [],
    chatInput := "",
    pendingReplies := [],
    trainingData := "",
    updateStatus := none,
    ncFiles := [],
    conversionStatus := none,
    pendingConversion := false,
    alerts := [] }

/-- `new FloatChatApp()`: construct the fields, then `init()` runs
`showPage('home')` followed by `checkAuthStatus()`. -/
def newFloatChatApp (stored : Option String) (now : ℚ) : AppState :=
  checkAuthStatus (showPage (initialState stored) "home") now

/-- Every public operation of the client, as invocable from the UI. -/
inductive AppAction where
  | nav (page : String)
  | login (username password : String) (now : ℚ)
  | doLogout
  | authCheck (now : ℚ)
  | typeChat (s : String)
  | chatSend (now : ℚ)
  | chatTimer
  | userTab (t : String)
  | adminTab (t : String)
  | typeTraining (s : String)
  | dbUpdate
  | pickFiles (fs : List String)
  | convert
  | convertTimer

/-- One step of the client state machine. -/
def step : AppAction → AppState → AppState
  | .nav p, st => showPage st p
  | .login u p now, st => handleLogin st u p now
  | .doLogout, st => logout st
  | .authCheck now, st => checkAuthStatus st now
  | .typeChat s, st => { st with chatInput := s }
  | .chatSend now, st => sendChatMessage st now
  | .chatTimer, st => fireReply st
  | .userTab t, st => showUserContent st t
  | .adminTab t, st => showAdminContent st t
  | .typeTraining s, st => { st with trainingData := s }
  | .dbUpdate, st => updateChatbotDB st
  | .pickFiles fs, st => { st with ncFiles := fs }
  | .convert, st => convertNCFiles st
  | .convertTimer, st => fireConversion st

/-! ## Helper lemmas -/

theorem digitChar_ascii (d : Nat) : (digitChar d).toNat < 128 := by
  unfold digitChar
  split <;> decide

theorem natCharsAux_ascii (fuel n : Nat) :
    ∀ c ∈ natCharsAux fuel n, c.toNat < 128 := by
  induction fuel generalizing n with
  | zero => intro c hc; simp [natCharsAux] at hc
  | succ fuel ih =>
    intro c hc
    unfold natCharsAux at hc
    by_cases h : n = 0
    · simp [h] at hc
    · simp [h, List.mem_append] at hc
      rcases hc with hc | hc
      · exact ih (n / 10) c hc
      · subst hc; exact digitChar_ascii _

theorem natChars_ascii (n : Nat) : ∀ c ∈ natChars n, c.toNat < 128 := by
  intro c hc
  unfold natChars at hc
  by_cases h : n = 0
  · simp [h] at hc; subst hc; decide
  · simp [h] at hc; exact natCharsAux_ascii n n c hc

theorem intChars_ascii (i : Int) : ∀ c ∈ intChars i, c.toNat < 128 := by
  intro c hc
  cases i with
  | ofNat n => exact natChars_ascii n c hc
  | negSucc m =>
    simp [intChars] at hc
    rcases hc with hc | hc
    · subst hc; decide
    · exact natChars_ascii (m + 1) c hc

/-- Every string `handleLogin` passes to `btoa` is ASCII, so the JS
built-in cannot throw on it and the total model `btoaFn` is faithful
at every call site (the demo table supplies the only username, role
and name values). -/
theorem stringifyAuthPayload_ascii (username role name : String)
    (hu : ∀ c ∈ username.data, c.toNat < 128)
    (hr : ∀ c ∈ role.data, c.toNat < 128)
    (hn : ∀ c ∈ name.data, c.toNat < 128) (exp : Int) :
    ∀ c ∈ stringifyAuthPayload username role name exp, c.toNat < 128 := by
  intro c hc
  unfold stringifyAuthPayload at hc
  simp only [List.append_assoc, List.mem_append] at hc
  rcases hc with h | h | h | h | h | h | h | h | h
  · exact (by decide : ∀ x ∈ "\x7b\"username\":\"".data, x.toNat < 128) c h
  · exact hu c h
  · exact (by decide : ∀ x ∈ "\",\"role\":\"".data, x.toNat < 128) c h
  · exact hr c h
  · exact (by decide : ∀ x ∈ "\",\"name\":\"".data, x.toNat < 128) c h
  · exact hn c h
  · exact (by decide : ∀ x ∈ "\",\"exp\":".data, x.toNat < 128) c h
  · exact intChars_ascii exp c h
  · rcases List.mem_singleton.1 h with rfl; decide

theorem getD_mem_or (l : List Char) (n : Nat) (d : Char) :
    l.getD n d ∈ l ∨ l.getD n d = d := by
  induction l generalizing n with
  | nil => right; simp [List.getD]
  | cons a t ih =>
    cases n with
    | zero => left; simp [List.getD]
    | succ m =>
      rcases ih m with h | h
      · left; simp [List.getD] at h ⊢; right; simpa [List.getD] using h
      · right; simpa [List.getD] using h

theorem encB64_ne_dot (n : Nat) : encB64 n ≠ '.' := by
  intro h
  rcases getD_mem_or b64alphabet n 'A' with hm | hd
  · rw [encB64] at h; rw [h] at hm; revert hm; decide
  · rw [encB64] at h; rw [h] at hd; revert hd; decide

theorem b64encode_no_dot : ∀ (l : List Nat), '.' ∉ b64encode l
  | [] => by simp [b64encode]
  | [a] => by
    intro h
    simp only [b64encode, List.mem_cons, List.not_mem_nil, or_false] at h
    rcases h with h | h | h | h
    · exact encB64_ne_dot _ h.symm
    · exact encB64_ne_dot _ h.symm
    · exact absurd h (by decide)
    · exact absurd h (by decide)
  | [a, b] => by
    intro h
    simp only [b64encode, List.mem_cons, List.not_mem_nil, or_false] at h
    rcases h with h | h | h | h
    · exact encB64_ne_dot _ h.symm
    · exact encB64_ne_dot _ h.symm
    · exact encB64_ne_dot _ h.symm
    · exact absurd h (by decide)
  | a :: b :: c :: rest => by
    intro h
    simp only [b64encode, List.mem_cons] at h
    rcases h with h | h | h | h | h
    · exact encB64_ne_dot _ h.symm
    · exact encB64_ne_dot _ h.symm
    · exact encB64_ne_dot _ h.symm
    · exact encB64_ne_dot _ h.symm
    · exact b64encode_no_dot rest h

theorem splitChAux_no_sep (sep : Char) (l : List Char) (h : sep ∉ l) :
    splitChAux sep l = (l, []) := by
  induction l with
  | nil => rfl
  | cons c rest ih =>
    have hc : ¬c = sep := fun he => h (he ▸ List.mem_cons_self c rest)
    have hr : sep ∉ rest := fun hm => h (List.mem_cons_of_mem c hm)
    simp [splitChAux, hc, ih hr]

theorem splitCh_no_sep (sep : Char) (l : List Char) (h : sep ∉ l) :
    splitCh sep l = [l] := by
  simp [splitCh, splitChAux_no_sep sep l h]

theorem atobFn_undefined : atobFn "undefined".data = none := by decide

/-- The decode pipeline of `checkAuthStatus` fails on every token
`btoa` can produce: such a token contains no dot, so `split('.')[1]`
is `undefined` and `atob("undefined")` throws. -/
theorem decodeToken_b64encode (l : List Nat) :
    decodeToken (String.mk (b64encode l)) = none := by
  unfold decodeToken
  have hsplit : splitCh '.' (String.mk (b64encode l)).data = [b64encode l] :=
    splitCh_no_sep '.' (b64encode l) (b64encode_no_dot l)
  rw [hsplit]
  simp only [List.getElem?_cons_succ, List.getElem?_nil, Option.getD_none]
  rw [atobFn_undefined]

theorem showUserContent_floats (st : AppState) (t : String) :
    (showUserContent st t).argoFloats = st.argoFloats := by
  unfold showUserContent
  split <;> rfl

theorem showAdminContent_floats (st : AppState) (t : String) :
    (showAdminContent st t).argoFloats = st.argoFloats := by
  unfold showAdminContent
  split <;> rfl

theorem showPage_floats (st : AppState) (page : String) :
    (showPage st page).argoFloats = st.argoFloats := by
  unfold showPage
  split <;> simp [showUserContent_floats, showAdminContent_floats]

theorem handleLogin_floats (st : AppState) (u p : String) (now : ℚ) :
    (handleLogin st u p now).argoFloats = st.argoFloats := by
  unfold handleLogin
  split
  · split
    · simp [showPage_floats]
    · rfl
  · rfl

theorem checkAuthStatus_floats (st : AppState) (now : ℚ) :
    (checkAuthStatus st now).argoFloats = st.argoFloats := by
  unfold checkAuthStatus
  split
  · rfl
  · split
    · rfl
    · rfl
    · split <;> rfl

theorem logout_floats (st : AppState) : (logout st).argoFloats = st.argoFloats := by
  unfold logout
  simp [showPage_floats]

theorem sendChatMessage_floats (st : AppState) (now : ℚ) :
    (sendChatMessage st now).argoFloats = st.argoFloats := by
  simp only [sendChatMessage]
  split <;> rfl

theorem fireReply_floats (st : AppState) : (fireReply st).argoFloats = st.argoFloats := by
  unfold fireReply
  split <;> rfl

theorem updateChatbotDB_floats (st : AppState) :
    (updateChatbotDB st).argoFloats = st.argoFloats := by
  unfold updateChatbotDB
  split <;> rfl

theorem convertNCFiles_floats (st : AppState) :
    (convertNCFiles st).argoFloats = st.argoFloats := by
  unfold convertNCFiles
  split <;> rfl

theorem fireConversion_floats (st : AppState) :
    (fireConversion st).argoFloats = st.argoFloats := by
  unfold fireConversion
  split <;> rfl

theorem fireReply_history (st : AppState) : (fireReply st).chatHistory = st.chatHistory := by
  unfold fireReply
  split <;> rfl

/-- `checkAuthStatus` on a state holding a token whose decode pipeline
throws: the stored token is removed and nothing else changes. -/
theorem checkAuthStatus_badToken (st : AppState) (tok : String) (now : ℚ)
    (hs : st.storage = some tok) (hd : decodeToken tok = none) :
    checkAuthStatus st now = { st with storage := none } := by
  simp only [checkAuthStatus, hs, hd]

/-! ## The claims -/

/-- C3 counterexample: `"bogus"` is outside the enumerated page set,
yet `showPage` does change the client state on it (the current-page
field becomes `"bogus"`), so the claimed no-op behaviour is false. -/
theorem c3UnknownPageCounterexample :
    ("bogus" ∉ (["home", "about", "contact", "login", "user", "admin"] : List String)) ∧
    showPage (initialState none) "bogus" ≠ initialState none := by
  refine ⟨by decide, fun h => ?_⟩
  have hc := congrArg AppState.currentPage h
  have : ("bogus" : String) = "home" := hc
  exact absurd this (by decide)

/-- C3 (amended): for every page identifier outside the enumerated set
{home, about, contact, login, user, admin}, `showPage` renders nothing
and leaves all client state unchanged except the current-page field,
which it unconditionally sets to the requested identifier before
dispatching. -/
theorem c3UnknownPageTheorem (st : AppState) (page : String)
    (h : page ∉ (["home", "about", "contact", "login", "user", "admin"] : List String)) :
    showPage st page = { st with currentPage := page } := by
  simp only [List.mem_cons, List.not_mem_nil, or_false, not_or] at h
  obtain ⟨h1, h2, h3, h4, h5, h6⟩ := h
  unfold showPage
  split <;> simp_all

theorem c3UnknownPageWitness :
    ("bogus" ∉ (["home", "about", "contact", "login", "user", "admin"] : List String)) ∧
    showPage (initialState none) "bogus" = { initialState none with currentPage := "bogus" } :=
  ⟨by decide, c3UnknownPageTheorem (initialState none) "bogus" (by decide)⟩

/-- C4: `login("user","user123")` and `login("admin","admin123")` each
succeed, creating a session of role `user` / `admin`, storing the
encoded credential, and navigating to that role's landing page; every
other pair fails with the user-visible `Invalid credentials` alert and
leaves everything else (session and stored credential included)
unchanged. -/
theorem c4LoginTheorem (st : AppState) (now : ℚ) :
    ((handleLogin st "user" "user123" now).currentUser =
        some (.obj [("username", .str "user"), ("role", .str "user"),
          ("name", .str "Marine Researcher")]) ∧
      (handleLogin st "user" "user123" now).currentPage = "user" ∧
      (handleLogin st "user" "user123" now).mainContent = some .userDash ∧
      (handleLogin st "user" "user123" now).storage =
        some (String.mk (btoaFn
          (stringifyAuthPayload "user" "user" "Marine Researcher" (⌊now⌋ + 3600))))) ∧
    ((handleLogin st "admin" "admin123" now).currentUser =
        some (.obj [("username", .str "admin"), ("role", .str "admin"),
          ("name", .str "System Administrator")]) ∧
      (handleLogin st "admin" "admin123" now).currentPage = "admin" ∧
      (handleLogin st "admin" "admin123" now).mainContent = some .adminDash ∧
      (handleLogin st "admin" "admin123" now).storage =
        some (String.mk (btoaFn
          (stringifyAuthPayload "admin" "admin" "System Administrator" (⌊now⌋ + 3600))))) ∧
    (∀ u p : String, ¬((u = "user" ∧ p = "user123") ∨ (u = "admin" ∧ p = "admin123")) →
      handleLogin st u p now = { st with alerts := st.alerts ++ ["Invalid credentials"] }) := by
  refine ⟨⟨rfl, rfl, rfl, rfl⟩, ⟨rfl, rfl, rfl, rfl⟩, ?_⟩
  intro u p hup
  by_cases h1 : u = "user"
  · subst h1
    have hp : ¬p = "user123" := fun he => hup (Or.inl ⟨rfl, he⟩)
    simp [handleLogin, demoUsers, hp]
  · by_cases h2 : u = "admin"
    · subst h2
      have hp : ¬p = "admin123" := fun he => hup (Or.inr ⟨rfl, he⟩)
      simp [handleLogin, demoUsers, hp]
    · have hd : demoUsers u = none := by
        unfold demoUsers
        split <;> simp_all
      simp only [handleLogin, hd]

theorem c4LoginWitness :
    (handleLogin (initialState none) "user" "user123" 0).currentPage = "user" ∧
    (handleLogin (initialState none) "admin" "admin123" 0).currentPage = "admin" ∧
    ¬((("bob" : String) = "user" ∧ ("pw" : String) = "user123") ∨
        (("bob" : String) = "admin" ∧ ("pw" : String) = "admin123")) ∧
    handleLogin (initialState none) "bob" "pw" 0 =
      { initialState none with alerts := ["Invalid credentials"] } :=
  ⟨(c4LoginTheorem (initialState none) 0).1.2.1,
   (c4LoginTheorem (initialState none) 0).2.1.2.1,
   by decide,
   (c4LoginTheorem (initialState none) 0).2.2 "bob" "pw" (by decide)⟩

/-- C6: input whose trimmed text is empty is rejected by
`sendChatMessage`: the state is returned completely unchanged (no
transcript entry, no scheduled reply, no history turn, input not even
cleared). -/
theorem c6BlankInputTheorem (st : AppState) (now : ℚ) (h : jsTrim st.chatInput = "") :
    sendChatMessage st now = st := by
  unfold sendChatMessage
  simp [h]

theorem c6BlankInputWitness :
    jsTrim ({ initialState none with chatInput := "   " } : AppState).chatInput = "" ∧
    sendChatMessage { initialState none with chatInput := "   " } 0 =
      { initialState none with chatInput := "   " } :=
  ⟨by decide, c6BlankInputTheorem _ 0 (by decide)⟩

/-- C7: an accepted (non-blank) query appends exactly one user entry
to the transcript immediately and schedules exactly one reply; when no
reply was already in flight, the delay firing appends exactly one bot
entry (the scheduled reply) and leaves nothing pending. -/
theorem c7TranscriptTheorem (st : AppState) (now : ℚ) (h : ¬jsTrim st.chatInput = "") :
    (sendChatMessage st now).chatMessages =
        st.chatMessages ++ [ChatMsg.user (jsTrim st.chatInput)] ∧
    (sendChatMessage st now).pendingReplies =
        st.pendingReplies ++ [generateChatResponse st.argoFloats (jsTrim st.chatInput)] ∧
    (st.pendingReplies = [] →
      (fireReply (sendChatMessage st now)).chatMessages =
          (sendChatMessage st now).chatMessages ++
            [ChatMsg.bot (generateChatResponse st.argoFloats (jsTrim st.chatInput))] ∧
      (fireReply (sendChatMessage st now)).pendingReplies = []) := by
  refine ⟨by simp [sendChatMessage, h], by simp [sendChatMessage, h], fun hp => ⟨?_, ?_⟩⟩
  · simp [sendChatMessage, fireReply, h, hp]
  · simp [sendChatMessage, fireReply, h, hp]

theorem c7TranscriptWitness :
    ¬jsTrim ({ initialState none with chatInput := "hello" } : AppState).chatInput = "" ∧
    (sendChatMessage { initialState none with chatInput := "hello" } 0).chatMessages =
        [ChatMsg.user "hello"] ∧
    (fireReply (sendChatMessage { initialState none with chatInput := "hello" } 0)).chatMessages =
        [ChatMsg.user "hello",
          ChatMsg.bot (generateChatResponse argoFloats "hello")] ∧
    (fireReply (sendChatMessage { initialState none with chatInput := "hello" } 0)).pendingReplies = [] := by
  have h := c7TranscriptTheorem { initialState none with chatInput := "hello" } 0 (by decide)
  exact ⟨by decide, h.1, (h.2.2 rfl).1, (h.2.2 rfl).2⟩

/-- C8: no client operation mutates the float list — neither a single
operation nor any sequence of them — and the constructed app starts
from the five fixed records, so every read observes the same five
records with the same fields. -/
theorem c8FloatsImmutableTheorem :
    (∀ (a : AppAction) (st : AppState), (step a st).argoFloats = st.argoFloats) ∧
    (∀ (acts : List AppAction) (st : AppState),
      (acts.foldl (fun s a => step a s) st).argoFloats = st.argoFloats) ∧
    (∀ stored : Option String, (initialState stored).argoFloats = argoFloats) ∧
    (∀ (stored : Option String) (now : ℚ),
      (newFloatChatApp stored now).argoFloats = argoFloats) ∧
    argoFloats.length = 5 := by
  have hstep : ∀ (a : AppAction) (st : AppState), (step a st).argoFloats = st.argoFloats := by
    intro a st
    cases a with
    | nav p => exact showPage_floats st p
    | login u p now => exact handleLogin_floats st u p now
    | doLogout => exact logout_floats st
    | authCheck now => exact checkAuthStatus_floats st now
    | typeChat s => rfl
    | chatSend now => exact sendChatMessage_floats st now
    | chatTimer => exact fireReply_floats st
    | userTab t => exact showUserContent_floats st t
    | adminTab t => exact showAdminContent_floats st t
    | typeTraining s => rfl
    | dbUpdate => exact updateChatbotDB_floats st
    | pickFiles fs => rfl
    | convert => exact convertNCFiles_floats st
    | convertTimer => exact fireConversion_floats st
  refine ⟨hstep, ?_, fun _ => rfl, ?_, rfl⟩
  · intro acts
    induction acts with
    | nil => intro st; rfl
    | cons a acts ih =>
      intro st
      rw [List.foldl_cons, ih, hstep]
  · intro stored now
    unfold newFloatChatApp
    rw [checkAuthStatus_floats, showPage_floats]
    rfl

/-- C9: `updateChatbotDB` shows the inline failure marker exactly when
the training-data text fails to parse as JSON, changes nothing besides
the status marker, and any syntactically valid JSON value — including
a bare number — yields the success marker.  The concrete conjuncts pin
the grammar boundary: a leading-zero numeral fails while exponent
notation and `\u` escapes succeed, as with the built-in parser. -/
theorem c9UpdateDBTheorem (st : AppState) :
    ((updateChatbotDB st).updateStatus = some invalidMarker ↔
        jsonParse st.trainingData.data = none) ∧
    ({ updateChatbotDB st with updateStatus := st.updateStatus } = st) ∧
    (updateChatbotDB { st with trainingData := "5" }).updateStatus = some successMarker ∧
    (updateChatbotDB { st with trainingData :=
        "[\x7b\"question\": \"What is temperature?\", \"answer\": \"Temperature is...\"\x7d]" }).updateStatus =
      some successMarker ∧
    (updateChatbotDB { st with trainingData := "not json" }).updateStatus = some invalidMarker ∧
    (updateChatbotDB { st with trainingData := "05" }).updateStatus = some invalidMarker ∧
    (updateChatbotDB { st with trainingData := "1e5" }).updateStatus = some successMarker ∧
    (updateChatbotDB { st with trainingData := "\"\\u0041\"" }).updateStatus =
      some successMarker := by
  refine ⟨?_, ?_, rfl, rfl, rfl, rfl, rfl, rfl⟩
  · unfold updateChatbotDB
    rcases hj : jsonParse st.trainingData.data with _ | v
    · simp
    · simp only []
      constructor
      · intro hcontra
        exact absurd (Option.some.inj hcontra) (by decide)
      · intro hcontra
        cases hcontra
  · unfold updateChatbotDB
    split <;> rfl

/-- C10: the history turn pushed by an accepted query is complete at
submission: it carries the user text together with the bot reply
computed synchronously by the resolver, and the later firing of the
display delay does not touch the history. -/
theorem c10HistoryCompleteTheorem (st : AppState) (now : ℚ) (h : ¬jsTrim st.chatInput = "") :
    (sendChatMessage st now).chatHistory =
        st.chatHistory ++
          [⟨jsTrim st.chatInput, generateChatResponse st.argoFloats (jsTrim st.chatInput), now⟩] ∧
    (fireReply (sendChatMessage st now)).chatHistory = (sendChatMessage st now).chatHistory := by
  exact ⟨by simp [sendChatMessage, h], fireReply_history _⟩

theorem c10HistoryCompleteWitness :
    ¬jsTrim ({ initialState none with chatInput := "hi" } : AppState).chatInput = "" ∧
    (sendChatMessage { initialState none with chatInput := "hi" } 0).chatHistory =
        [⟨"hi", generateChatResponse argoFloats "hi", 0⟩] ∧
    (fireReply (sendChatMessage { initialState none with chatInput := "hi" } 0)).chatHistory =
        (sendChatMessage { initialState none with chatInput := "hi" } 0).chatHistory :=
  ⟨by decide, (c10HistoryCompleteTheorem _ 0 (by decide)).1,
    (c10HistoryCompleteTheorem _ 0 (by decide)).2⟩

/-- C5: the resolver returns the canned paragraph of the first keyword
among temperature, salinity, location, float, profile — in that fixed
priority order — occurring as a substring of the lowercased query, and
the generic fallback when none occurs; every input yields one of these
six fixed strings, and a query containing both `temperature` and
`salinity` resolves to the temperature paragraph. -/
theorem c5ResolverTheorem (q : String) :
    (generateChatResponse argoFloats q =
      if jsIncludes (jsToLower q) "temperature" = true then tempResponse argoFloats
      else if jsIncludes (jsToLower q) "salinity" = true then salResponse
      else if jsIncludes (jsToLower q) "location" = true then locResponse argoFloats
      else if jsIncludes (jsToLower q) "float" = true then floatResponse argoFloats
      else if jsIncludes (jsToLower q) "profile" = true then profileResponse
      else fallbackResponse) ∧
    (generateChatResponse argoFloats q = tempResponse argoFloats ∨
      generateChatResponse argoFloats q = salResponse ∨
      generateChatResponse argoFloats q = locResponse argoFloats ∨
      generateChatResponse argoFloats q = floatResponse argoFloats ∨
      generateChatResponse argoFloats q = profileResponse ∨
      generateChatResponse argoFloats q = fallbackResponse) ∧
    (jsIncludes (jsToLower q) "temperature" = true → jsIncludes (jsToLower q) "salinity" = true →
      generateChatResponse argoFloats q = tempResponse argoFloats) := by
  have hmain : generateChatResponse argoFloats q =
      if jsIncludes (jsToLower q) "temperature" = true then tempResponse argoFloats
      else if jsIncludes (jsToLower q) "salinity" = true then salResponse
      else if jsIncludes (jsToLower q) "location" = true then locResponse argoFloats
      else if jsIncludes (jsToLower q) "float" = true then floatResponse argoFloats
      else if jsIncludes (jsToLower q) "profile" = true then profileResponse
      else fallbackResponse := by
    simp only [generateChatResponse, chatResponses]
    cases ht : jsIncludes (jsToLower q) "temperature" <;>
      cases hs : jsIncludes (jsToLower q) "salinity" <;>
      cases hl : jsIncludes (jsToLower q) "location" <;>
      cases hf : jsIncludes (jsToLower q) "float" <;>
      cases hp : jsIncludes (jsToLower q) "profile" <;>
      simp [List.find?, ht, hs, hl, hf, hp]
  refine ⟨hmain, ?_, fun h1 _ => by rw [hmain, if_pos h1]⟩
  rw [hmain]
  split_ifs <;> simp

theorem c5ResolverWitness :
    jsIncludes (jsToLower "What is the Temperature and Salinity today?") "temperature" = true ∧
    jsIncludes (jsToLower "What is the Temperature and Salinity today?") "salinity" = true ∧
    generateChatResponse argoFloats "What is the Temperature and Salinity today?" =
      tempResponse argoFloats :=
  ⟨by decide, by decide,
    (c5ResolverTheorem "What is the Temperature and Salinity today?").2.2 (by decide) (by decide)⟩

/-- C1: the store-then-restore round trip is broken.  A successful
login stores the credential as plain base64 of the JSON payload, but
`checkAuthStatus` decodes `token.split('.')[1]` — the payload slot of
a JWT.  A base64 token contains no dot, so index 1 is `undefined`,
`atob("undefined")` throws, and the restore path removes the stored
credential and adopts nothing, even when performed well before the
1-hour expiry.  The claim describes the evident intent; the code
contradicts it on every successful login. -/
theorem c1StoredTokenNotRestoredTheorem (tLogin tRestore : ℚ)
    (_h1 : tLogin ≤ tRestore) (_h2 : tRestore < ((⌊tLogin⌋ + 3600 : ℤ) : ℚ)) :
    (handleLogin (initialState none) "user" "user123" tLogin).storage =
      some (String.mk (btoaFn
        (stringifyAuthPayload "user" "user" "Marine Researcher" (⌊tLogin⌋ + 3600)))) ∧
    (newFloatChatApp (handleLogin (initialState none) "user" "user123" tLogin).storage
        tRestore).currentUser = none ∧
    (newFloatChatApp (handleLogin (initialState none) "user" "user123" tLogin).storage
        tRestore).storage = none := by
  have hstore : (handleLogin (initialState none) "user" "user123" tLogin).storage =
      some (String.mk (btoaFn
        (stringifyAuthPayload "user" "user" "Marine Researcher" (⌊tLogin⌋ + 3600)))) := rfl
  have hd : decodeToken (String.mk (btoaFn
      (stringifyAuthPayload "user" "user" "Marine Researcher" (⌊tLogin⌋ + 3600)))) = none :=
    decodeToken_b64encode _
  have hmk : newFloatChatApp
      (some (String.mk (btoaFn
        (stringifyAuthPayload "user" "user" "Marine Researcher" (⌊tLogin⌋ + 3600)))))
      tRestore =
      { showPage (initialState (some (String.mk (btoaFn
          (stringifyAuthPayload "user" "user" "Marine Researcher" (⌊tLogin⌋ + 3600))))))
          "home" with storage := none } := by
    unfold newFloatChatApp
    exact checkAuthStatus_badToken _ _ tRestore rfl hd
  rw [hstore, hmk]
  exact ⟨rfl, rfl, rfl⟩

theorem c1StoredTokenNotRestoredWitness :
    ((0 : ℚ) ≤ 0 ∧ (0 : ℚ) < ((⌊(0 : ℚ)⌋ + 3600 : ℤ) : ℚ)) ∧
    ((handleLogin (initialState none) "user" "user123" 0).storage =
      some (String.mk (btoaFn
        (stringifyAuthPayload "user" "user" "Marine Researcher" (⌊(0 : ℚ)⌋ + 3600)))) ∧
    (newFloatChatApp (handleLogin (initialState none) "user" "user123" 0).storage
        0).currentUser = none ∧
    (newFloatChatApp (handleLogin (initialState none) "user" "user123" 0).storage
        0).storage = none) :=
  ⟨⟨le_refl 0, by norm_num [Int.floor_zero]⟩,
    c1StoredTokenNotRestoredTheorem 0 0 (le_refl 0) (by norm_num [Int.floor_zero])⟩

/-- C2 counterexample: the token `h.eyJleHAiOjB9` decodes (through the
JWT-style pipeline) to the payload `\x7b"exp":0\x7d`, whose expiry is in the
past at time 1000; `checkAuthStatus` then yields no session but does
NOT clear the stored credential, contradicting the claim that it
clears storage. -/
theorem c2ExpiredTokenCounterexample :
    decodeToken "h.eyJleHAiOjB9" = some (.obj [("exp", .num 0)]) ∧
    (checkAuthStatus (initialState (some "h.eyJleHAiOjB9")) 1000).currentUser = none ∧
    (checkAuthStatus (initialState (some "h.eyJleHAiOjB9")) 1000).storage =
      some "h.eyJleHAiOjB9" := by
  exact ⟨rfl, rfl, rfl⟩

/-- C2 (amended): for every stored credential that decodes to a
payload whose (numeric) expiry is not in the future, `checkAuthStatus`
yields no active session and leaves the state — including the stored
credential — entirely unchanged; storage is cleared only when the
decode pipeline throws, not on expiry. -/
theorem c2ExpiredTokenKeptTheorem (st : AppState) (tok : String) (payload : JsVal)
    (e now : ℚ) (hs : st.storage = some tok) (hd : decodeToken tok = some payload)
    (hexp : jsonGet payload "exp" = some (.num e)) (hpast : e ≤ now) :
    checkAuthStatus st now = st := by
  cases payload with
  | obj fields =>
    have hgt : expGT (jsonGet (JsVal.obj fields) "exp") now = false := by
      rw [hexp]
      simp [expGT, not_lt.mpr hpast]
    simp [checkAuthStatus, hs, hd, hgt]
  | null => simp [jsonGet] at hexp
  | bool b => simp [jsonGet] at hexp
  | num q => simp [jsonGet] at hexp
  | str s => simp [jsonGet] at hexp
  | arr es => simp [jsonGet] at hexp

theorem c2ExpiredTokenKeptWitness :
    checkAuthStatus (initialState (some "h.eyJleHAiOjB9")) 1 =
      initialState (some "h.eyJleHAiOjB9") :=
  c2ExpiredTokenKeptTheorem _ "h.eyJleHAiOjB9" (.obj [("exp", .num 0)]) 0 1 rfl rfl rfl
    (by norm_num)
